import Mathlib

/-!
Verification development for the WildfireSmokeAnalysis contract
(src/contracts/WildfireSmokeAnalysis.sol).

The contract state is embedded shallowly: Solidity mappings become Lean
functions (value mappings to structs become functions into Option, so
that creation of an entry is observable; the uint256-to-uint256 request
mapping keeps Solidity's zero default), euint32 ciphertext handles are
modelled by the natural number they encrypt, with every homomorphic
operation reducing modulo 2^32, and a reverting function returns Except.
-/

/-- Modulus of the euint32 encrypted-integer type. -/
def M32 : Nat := 2 ^ 32

/-- FHE.asEuint32: inject a plaintext value into the euint32 domain. -/
def FHE.asEuint32 (n : Nat) : Nat := n % M32

/-- FHE.add on euint32: wrapping addition modulo 2^32. -/
def FHE.add (a b : Nat) : Nat := (a + b) % M32

/-- FHE.mul on euint32: wrapping multiplication modulo 2^32. -/
def FHE.mul (a b : Nat) : Nat := (a * b) % M32

/-- FHE.div on euint32: truncating integer division. -/
def FHE.div (a b : Nat) : Nat := a / b

/-- struct EncryptedSensorData. -/
structure EncryptedSensorData where
  agency : Nat
  encryptedSmokeLevel : Nat
  encryptedWindSpeed : Nat
  encryptedWindDirection : Nat
  timestamp : Nat
  locationId : Nat
deriving DecidableEq

/-- struct SmokePropagationModel. -/
structure SmokePropagationModel where
  encryptedPrediction : Nat
  isComputed : Bool
deriving DecidableEq

/-- struct AirQualityAlert. -/
structure AirQualityAlert where
  alertLevel : String
  isRevealed : Bool
deriving DecidableEq

/-- The revert reasons raised by the contract's require statements. -/
inductive ContractError where
  | NoDataForLocation
  | AlreadyComputed
  | ModelNotComputed
  | InvalidRequest
  | AlertAlreadyGenerated
  | AuthenticityError
  | NotComputed
  | NotGenerated
deriving DecidableEq

/-- The contract's storage. -/
structure ContractState where
  dataCount : Nat
  sensorData : Nat → Option EncryptedSensorData
  propagationModels : Nat → Option SmokePropagationModel
  airQualityAlerts : Nat → Option AirQualityAlert
  locationData : Nat → List Nat
  requestToDataId : Nat → Nat

/-- Reading sensorData with Solidity's default-struct semantics. -/
def getData (s : ContractState) (i : Nat) : EncryptedSensorData :=
  (s.sensorData i).getD
    { agency := 0, encryptedSmokeLevel := 0, encryptedWindSpeed := 0
      encryptedWindDirection := 0, timestamp := 0, locationId := 0 }

/-- Reading propagationModels with Solidity's default-struct semantics. -/
def getModel (s : ContractState) (l : Nat) : SmokePropagationModel :=
  (s.propagationModels l).getD { encryptedPrediction := 0, isComputed := false }

/-- Reading airQualityAlerts with Solidity's default-struct semantics. -/
def getAlert (s : ContractState) (l : Nat) : AirQualityAlert :=
  (s.airQualityAlerts l).getD { alertLevel := "", isRevealed := false }

/-- uploadSensorData: stores the reading under the fresh id dataCount+1,
appends the id to the location's ledger, and (unconditionally) writes a
fresh zero/uncomputed SmokePropagationModel and an empty/unrevealed
AirQualityAlert for the location.  sender models msg.sender and
blockTimestamp models block.timestamp. -/
def uploadSensorData (s : ContractState) (sender : Nat)
    (encryptedSmokeLevel encryptedWindSpeed encryptedWindDirection : Nat)
    (locationId : Nat) (blockTimestamp : Nat) : ContractState :=
  let newId := s.dataCount + 1
  { dataCount := newId
    sensorData := fun i =>
      if i = newId then
        some { agency := sender
               encryptedSmokeLevel := encryptedSmokeLevel
               encryptedWindSpeed := encryptedWindSpeed
               encryptedWindDirection := encryptedWindDirection
               timestamp := blockTimestamp
               locationId := locationId }
      else s.sensorData i
    propagationModels := fun l =>
      if l = locationId then
        some { encryptedPrediction := FHE.asEuint32 0, isComputed := false }
      else s.propagationModels l
    airQualityAlerts := fun l =>
      if l = locationId then some { alertLevel := "", isRevealed := false }
      else s.airQualityAlerts l
    locationData := fun l =>
      if l = locationId then s.locationData l ++ [newId]
      else s.locationData l
    requestToDataId := s.requestToDataId }

/-- computePropagationModel: requires a non-empty ledger and an uncomputed
model, homomorphically sums the three channels over the ledger, divides
each sum by the (uint32-cast) reading count, and stores
avgSmoke * avgWindSpeed as the prediction, marking the model computed.
The wind-direction average is computed but unused, as in the source. -/
def computePropagationModel (s : ContractState) (locationId : Nat) :
    Except ContractError ContractState :=
  if (s.locationData locationId).length = 0 then
    .error ContractError.NoDataForLocation
  else if (getModel s locationId).isComputed then
    .error ContractError.AlreadyComputed
  else
    let ids := s.locationData locationId
    let sumSmoke := ids.foldl
      (fun acc i => FHE.add acc (getData s i).encryptedSmokeLevel) (FHE.asEuint32 0)
    let sumWind := ids.foldl
      (fun acc i => FHE.add acc (getData s i).encryptedWindSpeed) (FHE.asEuint32 0)
    let sumDir := ids.foldl
      (fun acc i => FHE.add acc (getData s i).encryptedWindDirection) (FHE.asEuint32 0)
    let n := ids.length
    let avgSmoke := FHE.div sumSmoke (FHE.asEuint32 (n % M32))
    let avgWindSpeed := FHE.div sumWind (FHE.asEuint32 (n % M32))
    let avgWindDirection := FHE.div sumDir (FHE.asEuint32 (n % M32))
    let _unusedDirection := avgWindDirection
    .ok ({ s with
            propagationModels := fun l =>
              if l = locationId then
                some { encryptedPrediction := FHE.mul avgSmoke avgWindSpeed,
                       isComputed := true }
              else s.propagationModels l })

/-- generateAirQualityAlert: requires a computed model, then records the
oracle correlation requestToDataId[reqId] = locationId.  The oracle
assigns reqId; it is a parameter of the embedding. -/
def generateAirQualityAlert (s : ContractState) (locationId reqId : Nat) :
    Except ContractError ContractState :=
  if (getModel s locationId).isComputed then
    .ok ({ s with
            requestToDataId := fun r =>
              if r = reqId then locationId else s.requestToDataId r })
  else .error ContractError.ModelNotComputed

/-- The five-level threshold classification inlined in
generateAlertCallback (lines 143-153 of the source). -/
def classifyAlertLevel (prediction : Nat) : String :=
  if prediction > 8000 then "Hazardous"
  else if prediction > 5000 then "Very Unhealthy"
  else if prediction > 3000 then "Unhealthy"
  else if prediction > 1000 then "Moderate"
  else "Good"

/-- generateAlertCallback: looks up the location by requestId (Solidity
mapping default 0 stands for unknown), requires it nonzero, requires the
alert not already revealed, then checks the oracle proof (modelled by the
Boolean proofValid, the outcome of FHE.checkSignatures), decodes the
uint32 prediction from the cleartexts, classifies it and reveals the
alert.  The order of the three checks is exactly the source's order. -/
def generateAlertCallback (s : ContractState) (requestId cleartexts : Nat)
    (proofValid : Bool) : Except ContractError ContractState :=
  let locationId := s.requestToDataId requestId
  if locationId = 0 then .error ContractError.InvalidRequest
  else if (getAlert s locationId).isRevealed then
    .error ContractError.AlertAlreadyGenerated
  else if proofValid = false then .error ContractError.AuthenticityError
  else
    let prediction := cleartexts % M32
    .ok ({ s with
            airQualityAlerts := fun l =>
              if l = locationId then
                some { alertLevel := classifyAlertLevel prediction,
                       isRevealed := true }
              else s.airQualityAlerts l })

/-- getEncryptedModel view function. -/
def getEncryptedModel (s : ContractState) (locationId : Nat) :
    Except ContractError Nat :=
  if (getModel s locationId).isComputed then
    .ok (getModel s locationId).encryptedPrediction
  else .error ContractError.NotComputed

/-- getAirQualityAlert view function. -/
def getAirQualityAlert (s : ContractState) (locationId : Nat) :
    Except ContractError String :=
  if (getAlert s locationId).isRevealed then
    .ok (getAlert s locationId).alertLevel
  else .error ContractError.NotGenerated

/-- getLocationDataCount view function. -/
def getLocationDataCount (s : ContractState) (locationId : Nat) : Nat :=
  (s.locationData locationId).length

/-- The state-changing entry points of the contract, with the
environment-supplied data (sender, timestamp, oracle request id,
cleartexts, proof validity) as constructor arguments. -/
inductive Op where
  | upload (sender smoke wind dir locationId ts : Nat)
  | compute (locationId : Nat)
  | requestDisclosure (locationId reqId : Nat)
  | callback (requestId cleartexts : Nat) (proofValid : Bool)
deriving DecidableEq

/-- One transaction: a reverting call leaves the state unchanged. -/
def applyOp (s : ContractState) (op : Op) : ContractState :=
  match op with
  | .upload a sm w d l t => uploadSensorData s a sm w d l t
  | .compute l =>
      match computePropagationModel s l with
      | .ok t => t
      | .error _ => s
  | .requestDisclosure l r =>
      match generateAirQualityAlert s l r with
      | .ok t => t
      | .error _ => s
  | .callback r c p =>
      match generateAlertCallback s r c p with
      | .ok t => t
      | .error _ => s

/-- Run a sequence of transactions. -/
def runOps (s : ContractState) (ops : List Op) : ContractState :=
  ops.foldl applyOp s

/-- The freshly deployed contract: every mapping empty, count zero. -/
def initialState : ContractState :=
  { dataCount := 0
    sensorData := fun _ => none
    propagationModels := fun _ => none
    airQualityAlerts := fun _ => none
    locationData := fun _ => []
    requestToDataId := fun _ => 0 }

/-- A state reachable from deployment by some transaction sequence. -/
def Reachable (s : ContractState) : Prop :=
  ∃ ops : List Op, s = runOps initialState ops

/-- Whether a call succeeded. -/
def isOk (r : Except ContractError ContractState) : Bool :=
  match r with
  | .ok _ => true
  | .error _ => false

/-- The encrypted prediction after a successful compute, none on revert. -/
def predictionAfterCompute (s : ContractState) (l : Nat) : Option Nat :=
  match computePropagationModel s l with
  | .ok t => some ((getModel t l).encryptedPrediction)
  | .error _ => none

/-- Plain (unwrapped) sum of the smoke channel over a location's ledger. -/
def ledgerSmokeSum (s : ContractState) (l : Nat) : Nat :=
  ((s.locationData l).map (fun i => (getData s i).encryptedSmokeLevel)).sum

/-- Plain (unwrapped) sum of the wind-speed channel over a location's ledger. -/
def ledgerWindSum (s : ContractState) (l : Nat) : Nat :=
  ((s.locationData l).map (fun i => (getData s i).encryptedWindSpeed)).sum

/-- The prediction as the spec phrases it: the euint32 sum of each channel,
divided by the reading count N (truncating), the two averages multiplied in
euint32.  Wind direction does not occur. -/
def specPrediction (s : ContractState) (l : Nat) : Nat :=
  let n := (s.locationData l).length
  FHE.mul (FHE.div (ledgerSmokeSum s l % M32) n)
          (FHE.div (ledgerWindSum s l % M32) n)

/-- Severity rank of an alert label, for the monotonicity statement. -/
def severityRank (label : String) : Nat :=
  if label = "Hazardous" then 4
  else if label = "Very Unhealthy" then 3
  else if label = "Unhealthy" then 2
  else if label = "Moderate" then 1
  else 0

/-- Three readings for location 7: smoke 2,4,6 and wind speed 10,10,10. -/
def scenarioThree : ContractState :=
  uploadSensorData
    (uploadSensorData
      (uploadSensorData initialState 1 2 10 0 7 0)
      1 4 10 0 7 0)
    1 6 10 0 7 0

/-- A single reading for location 7: smoke 9000, wind speed 1. -/
def scenarioSingle : ContractState :=
  uploadSensorData initialState 1 9000 1 0 7 0

/-- Location 1 with one reading and a computed model. -/
def computedState : ContractState :=
  runOps initialState [Op.upload 1 2 10 0 1 0, Op.compute 1]

/-- computedState after a disclosure request with oracle request id 9. -/
def disclosureState : ContractState :=
  runOps initialState
    [Op.upload 1 2 10 0 1 0, Op.compute 1, Op.requestDisclosure 1 9]

/-- disclosureState after the verified oracle callback revealed the alert. -/
def revealedState : ContractState :=
  runOps initialState
    [Op.upload 1 2 10 0 1 0, Op.compute 1, Op.requestDisclosure 1 9,
     Op.callback 9 40 true]

/-- One reading submitted under the sentinel location id 0. -/
def zeroLedgerState : ContractState :=
  uploadSensorData initialState 1 5 6 7 0 0

/-- zeroLedgerState after computing location 0's model. -/
def zeroComputedState : ContractState :=
  applyOp zeroLedgerState (Op.compute 0)

/-- zeroComputedState after a disclosure request (oracle id 5) for
location 0; the recorded correlation entry collides with the sentinel. -/
def zeroDisclosureState : ContractState :=
  applyOp zeroComputedState (Op.requestDisclosure 0 5)

/-- The empty alert/model defaults used by the ledger after a submission. -/
def freshModel : SmokePropagationModel :=
  { encryptedPrediction := 0, isComputed := false }

/-- The unrevealed alert written by a submission. -/
def freshAlert : AirQualityAlert :=
  { alertLevel := "", isRevealed := false }

theorem getModel_uploadSensorData (s : ContractState)
    (a sm w d lid t x : Nat) :
    getModel (uploadSensorData s a sm w d lid t) x =
      if x = lid then freshModel else getModel s x := by
  simp only [uploadSensorData, getModel, freshModel]
  split
  · rfl
  · rfl

theorem getAlert_uploadSensorData (s : ContractState)
    (a sm w d lid t x : Nat) :
    getAlert (uploadSensorData s a sm w d lid t) x =
      if x = lid then freshAlert else getAlert s x := by
  simp only [uploadSensorData, getAlert, freshAlert]
  split
  · rfl
  · rfl

theorem applyOp_compute_of_error (s : ContractState) (l : Nat)
    (e : ContractError) (h : computePropagationModel s l = .error e) :
    applyOp s (Op.compute l) = s := by
  simp only [applyOp, h]

theorem applyOp_disclosure_of_error (s : ContractState) (l r : Nat)
    (e : ContractError) (h : generateAirQualityAlert s l r = .error e) :
    applyOp s (Op.requestDisclosure l r) = s := by
  simp only [applyOp, h]

theorem applyOp_callback_of_error (s : ContractState) (r c : Nat) (p : Bool)
    (e : ContractError) (h : generateAlertCallback s r c p = .error e) :
    applyOp s (Op.callback r c p) = s := by
  simp only [applyOp, h]

/-- Everything a successful compute leaves alone, and the new model entry. -/
theorem compute_ok_shape (s : ContractState) (l : Nat) (t : ContractState)
    (h : computePropagationModel s l = .ok t) :
    t.dataCount = s.dataCount ∧ t.sensorData = s.sensorData ∧
    t.airQualityAlerts = s.airQualityAlerts ∧
    t.locationData = s.locationData ∧
    t.requestToDataId = s.requestToDataId ∧
    ∃ p, t.propagationModels = fun x =>
      if x = l then some { encryptedPrediction := p, isComputed := true }
      else s.propagationModels x := by
  unfold computePropagationModel at h
  split at h
  · exact absurd h (by simp)
  · split at h
    · exact absurd h (by simp)
    · injection h with h
      subst h
      refine ⟨rfl, rfl, rfl, rfl, rfl, ⟨_, rfl⟩⟩

/-- Everything a successful disclosure request leaves alone, its guard,
and the new correlation entry. -/
theorem disclosure_ok_shape (s : ContractState) (l r : Nat)
    (t : ContractState) (h : generateAirQualityAlert s l r = .ok t) :
    (getModel s l).isComputed = true ∧
    t.dataCount = s.dataCount ∧ t.sensorData = s.sensorData ∧
    t.propagationModels = s.propagationModels ∧
    t.airQualityAlerts = s.airQualityAlerts ∧
    t.locationData = s.locationData ∧
    t.requestToDataId = fun x => if x = r then l else s.requestToDataId x := by
  unfold generateAirQualityAlert at h
  split at h
  · injection h with h
    subst h
    exact ⟨by assumption, rfl, rfl, rfl, rfl, rfl, rfl⟩
  · exact absurd h (by simp)

/-- Everything a successful callback leaves alone, its guards, and the
alert entry it writes. -/
theorem callback_ok_shape (s : ContractState) (r c : Nat) (p : Bool)
    (t : ContractState) (h : generateAlertCallback s r c p = .ok t) :
    s.requestToDataId r ≠ 0 ∧
    (getAlert s (s.requestToDataId r)).isRevealed = false ∧
    p = true ∧
    t.dataCount = s.dataCount ∧ t.sensorData = s.sensorData ∧
    t.propagationModels = s.propagationModels ∧
    t.locationData = s.locationData ∧
    t.requestToDataId = s.requestToDataId ∧
    t.airQualityAlerts = fun x =>
      if x = s.requestToDataId r then
        some { alertLevel := classifyAlertLevel (c % M32), isRevealed := true }
      else s.airQualityAlerts x := by
  simp only [generateAlertCallback] at h
  by_cases h0 : s.requestToDataId r = 0
  · rw [if_pos h0] at h
    exact absurd h (by simp)
  · rw [if_neg h0] at h
    by_cases hrev : (getAlert s (s.requestToDataId r)).isRevealed = true
    · rw [if_pos hrev] at h
      exact absurd h (by simp)
    · rw [if_neg hrev] at h
      by_cases hp : p = false
      · rw [if_pos hp] at h
        exact absurd h (by simp)
      · rw [if_neg hp] at h
        injection h with h
        subst h
        exact ⟨h0, by simpa using hrev, by simpa using hp,
          rfl, rfl, rfl, rfl, rfl, rfl⟩

/-- Wrapping left fold of FHE.add equals the plain sum taken modulo 2^32. -/
theorem foldl_fheAdd (g : Nat → Nat) (ids : List Nat) (a : Nat) :
    ids.foldl (fun acc i => FHE.add acc (g i)) (a % M32) =
      (a + (ids.map g).sum) % M32 := by
  induction ids generalizing a with
  | nil => simp
  | cons x xs ih =>
      simp only [List.foldl_cons, List.map_cons, List.sum_cons]
      have h1 : FHE.add (a % M32) (g x) = (a + g x) % M32 := by
        simp [FHE.add, Nat.mod_add_mod]
      rw [h1, ih (a + g x), Nat.add_assoc]


/-- C3: the classifier assigns exactly one of the five ordered alert levels
by exclusive lower-bound thresholds (greater than 8000 Hazardous, 5001-8000
Very Unhealthy, 3001-5000 Unhealthy, 1001-3000 Moderate, at most 1000 Good);
the mapping is total, the bands are non-overlapping, severity is monotone in
the decoded scalar, and the boundary examples 8001, 8000, 5001, 1, 0 land on
Hazardous, Very Unhealthy, Very Unhealthy, Good, Good respectively. -/
theorem C3_classification :
    (∀ v : Nat,
      (classifyAlertLevel v = "Hazardous" ↔ 8000 < v) ∧
      (classifyAlertLevel v = "Very Unhealthy" ↔ 5000 < v ∧ v ≤ 8000) ∧
      (classifyAlertLevel v = "Unhealthy" ↔ 3000 < v ∧ v ≤ 5000) ∧
      (classifyAlertLevel v = "Moderate" ↔ 1000 < v ∧ v ≤ 3000) ∧
      (classifyAlertLevel v = "Good" ↔ v ≤ 1000)) ∧
    (∀ v : Nat,
      classifyAlertLevel v = "Hazardous" ∨
      classifyAlertLevel v = "Very Unhealthy" ∨
      classifyAlertLevel v = "Unhealthy" ∨
      classifyAlertLevel v = "Moderate" ∨
      classifyAlertLevel v = "Good") ∧
    (∀ v w : Nat, v ≤ w →
      severityRank (classifyAlertLevel v) ≤ severityRank (classifyAlertLevel w)) ∧
    classifyAlertLevel 8001 = "Hazardous" ∧
    classifyAlertLevel 8000 = "Very Unhealthy" ∧
    classifyAlertLevel 5001 = "Very Unhealthy" ∧
    classifyAlertLevel 1 = "Good" ∧
    classifyAlertLevel 0 = "Good" := by
  refine ⟨?_, ?_, ?_, rfl, rfl, rfl, rfl, rfl⟩
  · intro v
    simp only [classifyAlertLevel]
    split_ifs with h1 h2 h3 h4 <;>
      refine ⟨?_, ?_, ?_, ?_, ?_⟩ <;> simp <;> omega
  · intro v
    simp only [classifyAlertLevel]
    split_ifs <;> simp
  · intro v w hvw
    simp only [classifyAlertLevel]
    split_ifs <;> first | rfl | decide | omega

/-- C3 witness: the monotonicity part at a concrete pair. -/
theorem C3_witness :
    severityRank (classifyAlertLevel 500) ≤ severityRank (classifyAlertLevel 9000) :=
  C3_classification.2.2.1 500 9000 (by decide)

/-- C6: a callback whose requestId is unrecognized (the correlation mapping
holds its zero default) fails with InvalidRequest and mutates no state, so
no AlertRecord changes and the request is never mapped to a real location. -/
theorem C6_unknown_request (s : ContractState) (req clr : Nat) (pv : Bool)
    (h : s.requestToDataId req = 0) :
    generateAlertCallback s req clr pv = .error ContractError.InvalidRequest ∧
    applyOp s (Op.callback req clr pv) = s := by
  have he : generateAlertCallback s req clr pv =
      .error ContractError.InvalidRequest := by
    simp [generateAlertCallback, h]
  exact ⟨he, applyOp_callback_of_error s req clr pv _ he⟩

/-- C6 witness: request id 3 is unknown in the initial state. -/
theorem C6_witness :
    generateAlertCallback initialState 3 40 true =
      .error ContractError.InvalidRequest ∧
    applyOp initialState (Op.callback 3 40 true) = initialState :=
  C6_unknown_request initialState 3 40 true rfl

/-- C7: a callback whose proof fails verification leaves the state
unchanged, so it sets neither isRevealed nor alertLevel for any location,
whatever the cleartext payload is. -/
theorem C7_invalid_proof (s : ContractState) (req clr : Nat) :
    applyOp s (Op.callback req clr false) = s ∧
    (∀ l, (getAlert (applyOp s (Op.callback req clr false)) l).isRevealed =
            (getAlert s l).isRevealed ∧
          (getAlert (applyOp s (Op.callback req clr false)) l).alertLevel =
            (getAlert s l).alertLevel) := by
  have he : ∃ e, generateAlertCallback s req clr false = .error e := by
    simp only [generateAlertCallback]
    by_cases h0 : s.requestToDataId req = 0
    · rw [if_pos h0]
      exact ⟨_, rfl⟩
    · rw [if_neg h0]
      by_cases hrev : (getAlert s (s.requestToDataId req)).isRevealed = true
      · rw [if_pos hrev]
        exact ⟨_, rfl⟩
      · rw [if_neg hrev, if_pos trivial]
        exact ⟨_, rfl⟩
  obtain ⟨e, he⟩ := he
  have hs := applyOp_callback_of_error s req clr false e he
  rw [hs]
  exact ⟨rfl, fun l => ⟨rfl, rfl⟩⟩

/-- C9 counterexample: a reading submitted with locationId 0 is accepted
and stored (appended to ledger 0 with its zero locationId), whereas the
claim says it must fail with MalformedInput. -/
theorem C9_counterexample :
    zeroLedgerState.locationData 0 = [1] ∧
    zeroLedgerState.sensorData 1 =
      some { agency := 1, encryptedSmokeLevel := 5, encryptedWindSpeed := 6,
             encryptedWindDirection := 7, timestamp := 0, locationId := 0 } :=
  ⟨rfl, rfl⟩

/-- C9 amended: submit performs no input validation at all: every reading,
including one with locationId 0, is accepted, stored under the fresh id
dataCount+1 and appended to the ledger of its locationId; consequently a
stored reading may carry a zero locationId. -/
theorem C9_amended_total_accept (s : ContractState) (a sm w d l t : Nat) :
    (uploadSensorData s a sm w d l t).locationData l =
      s.locationData l ++ [s.dataCount + 1] ∧
    (uploadSensorData s a sm w d l t).sensorData (s.dataCount + 1) =
      some { agency := a, encryptedSmokeLevel := sm, encryptedWindSpeed := w,
             encryptedWindDirection := d, timestamp := t, locationId := l } ∧
    (uploadSensorData s a sm w d l t).dataCount = s.dataCount + 1 := by
  refine ⟨?_, ?_, rfl⟩
  · simp [uploadSensorData]
  · simp [uploadSensorData]

/-- C4: compute on an empty ledger fails (NoDataForLocation, the spec's
InvalidState) with no mutation and hence never creates a PropagationModel;
compute on an already-computed location fails (NoDataForLocation or
AlreadyComputed, both the spec's InvalidState) with no mutation; and after
a successful compute an immediate second compute fails AlreadyComputed,
leaving the state and in particular encryptedPrediction bit-for-bit
unchanged. -/
theorem C4_compute_guards (s : ContractState) (l : Nat) :
    (s.locationData l = [] →
      computePropagationModel s l = .error ContractError.NoDataForLocation ∧
      applyOp s (Op.compute l) = s) ∧
    ((getModel s l).isComputed = true →
      (computePropagationModel s l = .error ContractError.NoDataForLocation ∨
       computePropagationModel s l = .error ContractError.AlreadyComputed) ∧
      applyOp s (Op.compute l) = s) ∧
    (∀ s₂, computePropagationModel s l = .ok s₂ →
      computePropagationModel s₂ l = .error ContractError.AlreadyComputed ∧
      applyOp s₂ (Op.compute l) = s₂ ∧
      (getModel (applyOp s₂ (Op.compute l)) l).encryptedPrediction =
        (getModel s₂ l).encryptedPrediction) := by
  refine ⟨?_, ?_, ?_⟩
  · intro h
    have he : computePropagationModel s l =
        .error ContractError.NoDataForLocation := by
      simp [computePropagationModel, h]
    exact ⟨he, applyOp_compute_of_error s l _ he⟩
  · intro h
    by_cases hlen : (s.locationData l).length = 0
    · have he : computePropagationModel s l =
          .error ContractError.NoDataForLocation := by
        simp [computePropagationModel, hlen]
      exact ⟨Or.inl he, applyOp_compute_of_error s l _ he⟩
    · have he : computePropagationModel s l =
          .error ContractError.AlreadyComputed := by
        simp [computePropagationModel, hlen, h]
      exact ⟨Or.inr he, applyOp_compute_of_error s l _ he⟩
  · intro s₂ hok
    obtain ⟨hdc, hsd, haa, hld, hreq, p, hpm⟩ := compute_ok_shape s l s₂ hok
    have hcomp : (getModel s₂ l).isComputed = true := by
      simp [getModel, hpm]
    have hlen : ¬ (s₂.locationData l).length = 0 := by
      rw [hld]
      intro hc
      have he : computePropagationModel s l =
          .error ContractError.NoDataForLocation := by
        simp [computePropagationModel, hc]
      rw [he] at hok
      exact absurd hok (by simp)
    have he : computePropagationModel s₂ l =
        .error ContractError.AlreadyComputed := by
      simp [computePropagationModel, hlen, hcomp]
    have hs := applyOp_compute_of_error s₂ l _ he
    exact ⟨he, hs, by rw [hs]⟩

/-- C4 witness: the guards at concrete states: empty ledger for location 3
in the initial state, and a double compute on location 1 of computedState. -/
theorem C4_witness :
    (computePropagationModel initialState 3 =
       .error ContractError.NoDataForLocation ∧
     applyOp initialState (Op.compute 3) = initialState) ∧
    ((computePropagationModel computedState 1 =
        .error ContractError.NoDataForLocation ∨
      computePropagationModel computedState 1 =
        .error ContractError.AlreadyComputed) ∧
     applyOp computedState (Op.compute 1) = computedState) ∧
    (computePropagationModel computedState 1 =
       .error ContractError.AlreadyComputed ∧
     applyOp computedState (Op.compute 1) = computedState ∧
     (getModel (applyOp computedState (Op.compute 1)) 1).encryptedPrediction =
       (getModel computedState 1).encryptedPrediction) :=
  ⟨(C4_compute_guards initialState 3).1 rfl,
   (C4_compute_guards computedState 1).2.1 rfl,
   (C4_compute_guards (uploadSensorData initialState 1 2 10 0 1 0) 1).2.2
     computedState rfl⟩

/-- C2: on a non-empty, not-yet-computed ledger (whose length fits in a
uint32), compute succeeds and stores as prediction the euint32 product of
the two truncated averages, smoke sum over N times wind-speed sum over N,
with wind direction playing no part; concretely, smoke 2,4,6 with wind
speed 10,10,10 yields 40, and a single reading smoke 9000 wind speed 1
yields 9000. -/
theorem C2_compute_formula (s : ContractState) (l : Nat)
    (hne : s.locationData l ≠ []) (hnc : (getModel s l).isComputed = false)
    (hN : (s.locationData l).length < M32) :
    predictionAfterCompute s l = some (specPrediction s l) ∧
    (getModel (applyOp s (Op.compute l)) l).isComputed = true ∧
    predictionAfterCompute scenarioThree 7 = some 40 ∧
    predictionAfterCompute scenarioSingle 7 = some 9000 := by
  have hstep : ∃ s₂, computePropagationModel s l = .ok s₂ ∧
      getModel s₂ l = { encryptedPrediction := specPrediction s l,
                        isComputed := true } := by
    have hlen : ¬ (s.locationData l).length = 0 := by
      simpa [List.length_eq_zero] using hne
    have hmod : (s.locationData l).length % M32 = (s.locationData l).length :=
      Nat.mod_eq_of_lt hN
    have hsum1 := foldl_fheAdd (fun i => (getData s i).encryptedSmokeLevel)
      (s.locationData l) 0
    have hsum2 := foldl_fheAdd (fun i => (getData s i).encryptedWindSpeed)
      (s.locationData l) 0
    simp only [Nat.zero_add, Nat.zero_mod] at hsum1 hsum2
    unfold computePropagationModel
    rw [if_neg hlen, if_neg (by simp [hnc])]
    refine ⟨_, rfl, ?_⟩
    simp only [getModel, if_pos rfl, Option.getD_some]
    simp [specPrediction, ledgerSmokeSum, ledgerWindSum, FHE.asEuint32,
      FHE.div, hmod, hsum1, hsum2]
  obtain ⟨s₂, hok, hm⟩ := hstep
  refine ⟨?_, ?_, rfl, rfl⟩
  · simp [predictionAfterCompute, hok, hm]
  · simp [applyOp, hok, hm]

/-- C2 witness: the formula instantiated on the three-reading scenario. -/
theorem C2_witness :
    predictionAfterCompute scenarioThree 7 = some (specPrediction scenarioThree 7) ∧
    (getModel (applyOp scenarioThree (Op.compute 7)) 7).isComputed = true ∧
    predictionAfterCompute scenarioThree 7 = some 40 ∧
    predictionAfterCompute scenarioSingle 7 = some 9000 :=
  C2_compute_formula scenarioThree 7 (by decide) (by decide) (by decide)

/-- C5 counterexample: for the known request 9 whose location 1 is already
revealed, a callback with an invalid proof fails AlertAlreadyGenerated
(the revealed check runs before proof verification), not AuthenticityError
as the claim requires. -/
theorem C5_counterexample :
    revealedState.requestToDataId 9 = 1 ∧
    (getAlert revealedState 1).isRevealed = true ∧
    generateAlertCallback revealedState 9 40 false =
      .error ContractError.AlertAlreadyGenerated ∧
    ContractError.AlertAlreadyGenerated ≠ ContractError.AuthenticityError :=
  ⟨rfl, rfl, rfl, by decide⟩

/-- C5 amended: the callback checks run in the order lookup (InvalidRequest),
then duplicate-reveal (AlertAlreadyGenerated), then proof verification
(AuthenticityError); consequently a callback for a known request whose
location is already revealed fails AlertAlreadyGenerated even when its
proof is invalid. -/
theorem C5_amended (s : ContractState) (req clr : Nat) (pv : Bool) :
    (s.requestToDataId req = 0 →
      generateAlertCallback s req clr pv =
        .error ContractError.InvalidRequest) ∧
    (s.requestToDataId req ≠ 0 →
      (getAlert s (s.requestToDataId req)).isRevealed = true →
      generateAlertCallback s req clr pv =
        .error ContractError.AlertAlreadyGenerated) ∧
    (s.requestToDataId req ≠ 0 →
      (getAlert s (s.requestToDataId req)).isRevealed = false →
      pv = false →
      generateAlertCallback s req clr pv =
        .error ContractError.AuthenticityError) := by
  refine ⟨?_, ?_, ?_⟩
  · intro h
    simp [generateAlertCallback, h]
  · intro h0 hrev
    simp only [generateAlertCallback]
    rw [if_neg h0, if_pos hrev]
  · intro h0 hrev hpv
    simp only [generateAlertCallback]
    rw [if_neg h0, if_neg (by simp [hrev]), if_pos hpv]

/-- C5 witness: the three orderings at concrete states: unknown request in
the initial state, invalid proof on the already-revealed location 1, and
invalid proof on the disclosed-but-unrevealed location 1. -/
theorem C5_witness :
    generateAlertCallback initialState 0 40 true =
      .error ContractError.InvalidRequest ∧
    generateAlertCallback revealedState 9 40 false =
      .error ContractError.AlertAlreadyGenerated ∧
    generateAlertCallback disclosureState 9 40 false =
      .error ContractError.AuthenticityError :=
  ⟨(C5_amended initialState 0 40 true).1 rfl,
   (C5_amended revealedState 9 40 false).2.1 (by decide) rfl,
   (C5_amended disclosureState 9 40 false).2.2 (by decide) rfl rfl⟩

/-- C8 counterexample: two back-to-back requestDisclosure calls on the
just-computed location 1 both succeed and both oracle requests (ids 5 and
6) are recorded, whereas the claim says exactly one can succeed. -/
theorem C8_counterexample :
    isOk (generateAirQualityAlert computedState 1 5) = true ∧
    isOk (generateAirQualityAlert
      (applyOp computedState (Op.requestDisclosure 1 5)) 1 6) = true ∧
    (applyOp (applyOp computedState (Op.requestDisclosure 1 5))
      (Op.requestDisclosure 1 6)).requestToDataId 5 = 1 ∧
    (applyOp (applyOp computedState (Op.requestDisclosure 1 5))
      (Op.requestDisclosure 1 6)).requestToDataId 6 = 1 :=
  ⟨rfl, rfl, rfl, rfl⟩

/-- C8 amended: requestDisclosure fails ModelNotComputed (the spec's
InvalidState) when the location is not computed, but for a computed
location there is no duplicate guard: every call succeeds and records a
fresh DecryptionRequest, so repeated calls issue multiple oracle requests;
duplicate reveal is prevented only at callback time by isRevealed. -/
theorem C8_amended (s : ContractState) (l r : Nat) :
    ((getModel s l).isComputed = false →
      generateAirQualityAlert s l r = .error ContractError.ModelNotComputed ∧
      applyOp s (Op.requestDisclosure l r) = s) ∧
    ((getModel s l).isComputed = true →
      isOk (generateAirQualityAlert s l r) = true ∧
      (applyOp s (Op.requestDisclosure l r)).requestToDataId r = l ∧
      (applyOp s (Op.requestDisclosure l r)).airQualityAlerts =
        s.airQualityAlerts ∧
      (getModel (applyOp s (Op.requestDisclosure l r)) l).isComputed = true) := by
  constructor
  · intro h
    have he : generateAirQualityAlert s l r =
        .error ContractError.ModelNotComputed := by
      simp [generateAirQualityAlert, h]
    exact ⟨he, applyOp_disclosure_of_error s l r _ he⟩
  · intro h
    have hok : generateAirQualityAlert s l r =
        .ok ({ s with
                requestToDataId := fun x =>
                  if x = r then l else s.requestToDataId x }) := by
      simp [generateAirQualityAlert, h]
    refine ⟨by simp [isOk, hok], ?_, ?_, ?_⟩
    · simp [applyOp, hok]
    · simp [applyOp, hok]
    · simpa [applyOp, hok, getModel] using h

/-- C8 witness: the two branches at concrete states: location 1 before any
compute, and the computed location 1 with oracle request id 5. -/
theorem C8_witness :
    (generateAirQualityAlert initialState 1 5 =
       .error ContractError.ModelNotComputed ∧
     applyOp initialState (Op.requestDisclosure 1 5) = initialState) ∧
    (isOk (generateAirQualityAlert computedState 1 5) = true ∧
     (applyOp computedState (Op.requestDisclosure 1 5)).requestToDataId 5 = 1 ∧
     (applyOp computedState (Op.requestDisclosure 1 5)).airQualityAlerts =
       computedState.airQualityAlerts ∧
     (getModel (applyOp computedState (Op.requestDisclosure 1 5)) 1).isComputed
       = true) :=
  ⟨(C8_amended initialState 1 5).1 rfl, (C8_amended computedState 1 5).2 rfl⟩

/-- Monotonicity of isComputed under any operation that is not an upload
for the watched location. -/
theorem isComputed_applyOp_mono (s : ContractState) (op : Op) (l : Nat)
    (hup : ∀ a sm w d t, op ≠ Op.upload a sm w d l t)
    (h : (getModel s l).isComputed = true) :
    (getModel (applyOp s op) l).isComputed = true := by
  cases op with
  | upload a sm w d lid t =>
      have hne : ¬ l = lid := by
        intro he
        exact hup a sm w d t (by rw [he])
      have : applyOp s (Op.upload a sm w d lid t) =
          uploadSensorData s a sm w d lid t := rfl
      rw [this, getModel_uploadSensorData, if_neg hne]
      exact h
  | compute lc =>
      cases hc : computePropagationModel s lc with
      | error e =>
          rw [applyOp_compute_of_error s lc e hc]
          exact h
      | ok t =>
          obtain ⟨_, _, _, _, _, p, hpm⟩ := compute_ok_shape s lc t hc
          have : applyOp s (Op.compute lc) = t := by simp [applyOp, hc]
          rw [this]
          by_cases hl : l = lc
          · simp [getModel, hpm, hl]
          · simpa [getModel, hpm, hl] using h
  | requestDisclosure lc r =>
      cases hc : generateAirQualityAlert s lc r with
      | error e =>
          rw [applyOp_disclosure_of_error s lc r e hc]
          exact h
      | ok t =>
          obtain ⟨_, _, _, hpm, _, _, _⟩ := disclosure_ok_shape s lc r t hc
          have : applyOp s (Op.requestDisclosure lc r) = t := by
            simp [applyOp, hc]
          rw [this]
          simpa [getModel, hpm] using h
  | callback r c p =>
      cases hc : generateAlertCallback s r c p with
      | error e =>
          rw [applyOp_callback_of_error s r c p e hc]
          exact h
      | ok t =>
          obtain ⟨_, _, _, _, _, hpm, _, _, _⟩ := callback_ok_shape s r c p t hc
          have : applyOp s (Op.callback r c p) = t := by simp [applyOp, hc]
          rw [this]
          simpa [getModel, hpm] using h

/-- Monotonicity of isRevealed under any operation that is not an upload
for the watched location. -/
theorem isRevealed_applyOp_mono (s : ContractState) (op : Op) (l : Nat)
    (hup : ∀ a sm w d t, op ≠ Op.upload a sm w d l t)
    (h : (getAlert s l).isRevealed = true) :
    (getAlert (applyOp s op) l).isRevealed = true := by
  cases op with
  | upload a sm w d lid t =>
      have hne : ¬ l = lid := by
        intro he
        exact hup a sm w d t (by rw [he])
      have : applyOp s (Op.upload a sm w d lid t) =
          uploadSensorData s a sm w d lid t := rfl
      rw [this, getAlert_uploadSensorData, if_neg hne]
      exact h
  | compute lc =>
      cases hc : computePropagationModel s lc with
      | error e =>
          rw [applyOp_compute_of_error s lc e hc]
          exact h
      | ok t =>
          obtain ⟨_, _, haa, _, _, _, _⟩ := compute_ok_shape s lc t hc
          have : applyOp s (Op.compute lc) = t := by simp [applyOp, hc]
          rw [this]
          simpa [getAlert, haa] using h
  | requestDisclosure lc r =>
      cases hc : generateAirQualityAlert s lc r with
      | error e =>
          rw [applyOp_disclosure_of_error s lc r e hc]
          exact h
      | ok t =>
          obtain ⟨_, _, _, _, haa, _, _⟩ := disclosure_ok_shape s lc r t hc
          have : applyOp s (Op.requestDisclosure lc r) = t := by
            simp [applyOp, hc]
          rw [this]
          simpa [getAlert, haa] using h
  | callback r c p =>
      cases hc : generateAlertCallback s r c p with
      | error e =>
          rw [applyOp_callback_of_error s r c p e hc]
          exact h
      | ok t =>
          obtain ⟨_, _, _, _, _, _, _, _, haa⟩ := callback_ok_shape s r c p t hc
          have : applyOp s (Op.callback r c p) = t := by simp [applyOp, hc]
          rw [this]
          by_cases hl : l = s.requestToDataId r
          · simp [getAlert, haa, hl]
          · simpa [getAlert, haa, hl] using h

/-- C1 counterexample: after location 1 is computed and revealed, one more
submission for location 1 overwrites both records, flipping isComputed and
isRevealed back to false and resetting the prediction and level, whereas
the claim says the flags never revert and a later submission leaves the
existing PropagationModel and AlertRecord unchanged. -/
theorem C1_counterexample :
    (getModel revealedState 1).isComputed = true ∧
    (getAlert revealedState 1).isRevealed = true ∧
    (getModel (applyOp revealedState (Op.upload 1 3 11 0 1 1)) 1).isComputed
      = false ∧
    (getAlert (applyOp revealedState (Op.upload 1 3 11 0 1 1)) 1).isRevealed
      = false ∧
    (getModel (applyOp revealedState (Op.upload 1 3 11 0 1 1))
      1).encryptedPrediction = 0 ∧
    (getAlert (applyOp revealedState (Op.upload 1 3 11 0 1 1)) 1).alertLevel
      = "" :=
  ⟨rfl, rfl, rfl, rfl, rfl, rfl⟩

/-- C1 amended: isComputed and isRevealed are monotone (false to true)
under compute, requestDisclosure and callback, and under uploads for other
locations; but every submission for a location unconditionally (re)writes
that location's PropagationModel (prediction zero, uncomputed) and
AlertRecord (empty, unrevealed), not only the first one, so the flags can
revert through a later submission. -/
theorem C1_amended (s : ContractState) (op : Op) (l : Nat)
    (hup : ∀ a sm w d t, op ≠ Op.upload a sm w d l t)
    (a sm w d lid t : Nat) :
    ((getModel s l).isComputed = true →
      (getModel (applyOp s op) l).isComputed = true) ∧
    ((getAlert s l).isRevealed = true →
      (getAlert (applyOp s op) l).isRevealed = true) ∧
    getModel (applyOp s (Op.upload a sm w d lid t)) lid = freshModel ∧
    getAlert (applyOp s (Op.upload a sm w d lid t)) lid = freshAlert := by
  refine ⟨isComputed_applyOp_mono s op l hup, isRevealed_applyOp_mono s op l hup,
    ?_, ?_⟩
  · have he : applyOp s (Op.upload a sm w d lid t) =
        uploadSensorData s a sm w d lid t := rfl
    rw [he, getModel_uploadSensorData, if_pos rfl]
  · have he : applyOp s (Op.upload a sm w d lid t) =
        uploadSensorData s a sm w d lid t := rfl
    rw [he, getAlert_uploadSensorData, if_pos rfl]

/-- C1 witness: a callback on the disclosed location 1 preserves the
computed flag, a disclosure request on the revealed location 1 preserves
the revealed flag, and a fresh upload for location 2 resets that
location's records. -/
theorem C1_witness :
    (getModel (applyOp disclosureState (Op.callback 9 40 true)) 1).isComputed
      = true ∧
    (getAlert (applyOp revealedState (Op.requestDisclosure 1 9)) 1).isRevealed
      = true ∧
    getModel (applyOp disclosureState (Op.upload 2 5 6 7 2 3)) 2 =
      freshModel ∧
    getAlert (applyOp disclosureState (Op.upload 2 5 6 7 2 3)) 2 =
      freshAlert :=
  ⟨(C1_amended disclosureState (Op.callback 9 40 true) 1
      (fun _ _ _ _ _ h => Op.noConfusion h) 2 5 6 7 2 3).1 rfl,
   (C1_amended revealedState (Op.requestDisclosure 1 9) 1
      (fun _ _ _ _ _ h => Op.noConfusion h) 2 5 6 7 2 3).2.1 rfl,
   (C1_amended disclosureState (Op.callback 9 40 true) 1
      (fun _ _ _ _ _ h => Op.noConfusion h) 2 5 6 7 2 3).2.2.1,
   (C1_amended disclosureState (Op.callback 9 40 true) 1
      (fun _ _ _ _ _ h => Op.noConfusion h) 2 5 6 7 2 3).2.2.2⟩

/-- One transaction preserves the unrevealability of location 0: an upload
only ever writes an unrevealed alert, compute and disclosure do not touch
alerts, and a successful callback writes only to its nonzero looked-up
location. -/
theorem zeroAlert_step (s : ContractState) (op : Op)
    (h : (getAlert s 0).isRevealed = false) :
    (getAlert (applyOp s op) 0).isRevealed = false := by
  cases op with
  | upload a sm w d lid t =>
      have he : applyOp s (Op.upload a sm w d lid t) =
          uploadSensorData s a sm w d lid t := rfl
      rw [he, getAlert_uploadSensorData]
      split
      · rfl
      · exact h
  | compute lc =>
      cases hc : computePropagationModel s lc with
      | error e =>
          rw [applyOp_compute_of_error s lc e hc]
          exact h
      | ok t =>
          obtain ⟨_, _, haa, _, _, _, _⟩ := compute_ok_shape s lc t hc
          have he : applyOp s (Op.compute lc) = t := by simp [applyOp, hc]
          rw [he]
          simpa [getAlert, haa] using h
  | requestDisclosure lc r =>
      cases hc : generateAirQualityAlert s lc r with
      | error e =>
          rw [applyOp_disclosure_of_error s lc r e hc]
          exact h
      | ok t =>
          obtain ⟨_, _, _, _, haa, _, _⟩ := disclosure_ok_shape s lc r t hc
          have he : applyOp s (Op.requestDisclosure lc r) = t := by
            simp [applyOp, hc]
          rw [he]
          simpa [getAlert, haa] using h
  | callback r c p =>
      cases hc : generateAlertCallback s r c p with
      | error e =>
          rw [applyOp_callback_of_error s r c p e hc]
          exact h
      | ok t =>
          obtain ⟨hne, _, _, _, _, _, _, _, haa⟩ := callback_ok_shape s r c p t hc
          have he : applyOp s (Op.callback r c p) = t := by simp [applyOp, hc]
          rw [he]
          have h0 : ¬ (0 : Nat) = s.requestToDataId r := fun hz => hne hz.symm
          simpa [getAlert, haa, h0] using h

/-- Any transaction sequence preserves the unrevealability of location 0. -/
theorem zeroAlert_runOps (ops : List Op) :
    ∀ s, (getAlert s 0).isRevealed = false →
      (getAlert (runOps s ops) 0).isRevealed = false := by
  induction ops with
  | nil =>
      intro s h
      exact h
  | cons op rest ih =>
      intro s h
      exact ih (applyOp s op) (zeroAlert_step s op h)

/-- C10: in every reachable state the AlertRecord of location 0 is
unrevealed, so getAirQualityAlert 0 always fails; yet the pipeline
accepts location 0 up to the callback: a reading tagged 0 is stored,
its compute and its disclosure request succeed, but the recorded
correlation entry equals the unknown-request sentinel 0, so the callback
rejects it with InvalidRequest and location 0 can never be revealed. -/
theorem C10_zero_location_never_revealed (s : ContractState)
    (h : Reachable s) :
    (getAlert s 0).isRevealed = false ∧
    getAirQualityAlert s 0 = .error ContractError.NotGenerated ∧
    zeroLedgerState.locationData 0 = [1] ∧
    isOk (computePropagationModel zeroLedgerState 0) = true ∧
    isOk (generateAirQualityAlert zeroComputedState 0 5) = true ∧
    zeroDisclosureState.requestToDataId 5 = 0 ∧
    generateAlertCallback zeroDisclosureState 5 40 true =
      .error ContractError.InvalidRequest := by
  obtain ⟨ops, rfl⟩ := h
  have hrev : (getAlert (runOps initialState ops) 0).isRevealed = false :=
    zeroAlert_runOps ops initialState rfl
  refine ⟨hrev, ?_, rfl, rfl, rfl, rfl, rfl⟩
  simp [getAirQualityAlert, hrev]

/-- C10 witness: the statement at the freshly deployed contract. -/
theorem C10_witness :
    (getAlert initialState 0).isRevealed = false ∧
    getAirQualityAlert initialState 0 = .error ContractError.NotGenerated ∧
    zeroLedgerState.locationData 0 = [1] ∧
    isOk (computePropagationModel zeroLedgerState 0) = true ∧
    isOk (generateAirQualityAlert zeroComputedState 0 5) = true ∧
    zeroDisclosureState.requestToDataId 5 = 0 ∧
    generateAlertCallback zeroDisclosureState 5 40 true =
      .error ContractError.InvalidRequest :=
  C10_zero_location_never_revealed initialState ⟨[], rfl⟩
